import Mathlib

/-!
Verification of the fast-serializer library (a Python runtime schema
validation and marshalling engine) against its natural-language
specification.  The Python source is shallowly embedded: machine values
become an inductive `PyValue`, floats and decimals are modelled as exact
rationals, stateful objects become explicit state passing, and fallible
operations return `Except`.
-/

/-- A Python runtime value, restricted to the shapes the claims need. -/
inductive PyValue where
  | none
  | bool (b : Bool)
  | int (n : ℤ)
  | float (q : ℚ)
  | str (s : String)
  | list (xs : List PyValue)
  | dict (kvs : List (String × PyValue))

/-- Python `value is None`. -/
def pyIsNone : PyValue → Bool
  | PyValue.none => true
  | _ => false

/-- Assoc-list lookup, as Python `dict.get` (returns `None` when the key is
absent). -/
def pyDictGet (kvs : List (String × PyValue)) (k : String) : Option PyValue :=
  (kvs.find? (fun kv => kv.1 == k)).map (fun kv => kv.2)

/-- Truncation toward zero, as Python `int()` applied to a float/Decimal. -/
def pyTrunc (q : ℚ) : ℤ := if 0 ≤ q then ⌊q⌋ else ⌈q⌉

/-- The runtime numeric kind of the value handed to the integer coercion. -/
inductive NumKind where
  | float
  | dec
deriving DecidableEq

/-- `IntegerValidator.half_adjust_value = 0.11`, as an exact rational. -/
def IntegerValidator.half_adjust_value : ℚ := 11 / 100

/-- `IntegerValidator.float_or_decimal_to_int(value, is_decimal)`.
`integer_part = int(value)`; then
`maybe_int = int(int(value + 0.11 if not is_decimal else Decimal(0.11)))`
(the Python conditional expression binds looser than `+`, so with
`is_decimal=True` the input value is discarded and the expression is
`int(int(Decimal(0.11))) = 0`); returns `maybe_int` when it exceeds
`integer_part`, else `integer_part`.  With the default `is_decimal=False`
(the only way `validate` ever calls it), a `Decimal` input hits
`value + 0.11`, which mixes `Decimal` and `float` and raises `TypeError`. -/
def IntegerValidator.float_or_decimal_to_int (kind : NumKind) (value : ℚ)
    (is_decimal : Bool) : Except String ℤ :=
  let integer_part := pyTrunc value
  match is_decimal, kind with
  | false, NumKind.float =>
      let maybe_int := pyTrunc (value + IntegerValidator.half_adjust_value)
      Except.ok (if maybe_int > integer_part then maybe_int else integer_part)
  | false, NumKind.dec =>
      Except.error "TypeError: unsupported operand type(s) for +: Decimal and float"
  | true, _ =>
      let maybe_int := pyTrunc IntegerValidator.half_adjust_value
      Except.ok (if maybe_int > integer_part then maybe_int else integer_part)

/-- Zero-pad a natural number to two digits, as Python `%02d`. -/
def pad2 (n : ℕ) : String :=
  if n < 10 then "0" ++ toString n else toString n

/-- Zero-pad a natural number to six digits, as Python `%06d`. -/
def pad6 (n : ℕ) : String :=
  let s := toString n
  String.mk (List.replicate (6 - s.length) '0') ++ s

/-- A Python `datetime.timedelta` after its constructor normalization:
`0 <= seconds < 86400` and `0 <= microseconds < 10^6` (only `days` may be
negative).  The claims only use normalized values. -/
structure Timedelta where
  days : ℤ
  seconds : ℕ
  microseconds : ℕ

/-- Python `str(timedelta)`: `"[N day[s], ]H:MM:SS[.ffffff]"`, with the
day prefix only when `days` is nonzero and the fractional part only when
`microseconds` is nonzero. -/
def Timedelta.pyStr (td : Timedelta) : String :=
  let mm := td.seconds / 60
  let ss := td.seconds % 60
  let hh := mm / 60
  let mm2 := mm % 60
  let s := toString hh ++ ":" ++ pad2 mm2 ++ ":" ++ pad2 ss
  let s := if td.days ≠ 0 then
      toString td.days ++ " day" ++ (if td.days.natAbs ≠ 1 then "s" else "") ++ ", " ++ s
    else s
  if td.microseconds ≠ 0 then s ++ "." ++ pad6 td.microseconds else s

/-- `TimeDeltaSerializer.uncheck_serialize`: pass `str(value)` through when
it is at most 8 characters, else build
`"[-]P{abs(days)}DT{hour}H{minute}M{second}S"` from `value.seconds`,
omitting each component that is not positive. -/
def TimeDeltaSerializer.uncheck_serialize (value : Timedelta) : String :=
  let str_value := Timedelta.pyStr value
  let length := str_value.length
  if length ≤ 8 then str_value
  else
    let hour := value.seconds / 3600
    let minute := (value.seconds % 3600) / 60
    let second := value.seconds % 60
    let hour_text := if hour > 0 then toString hour ++ "H" else ""
    let minute_text := if minute > 0 then toString minute ++ "M" else ""
    let second_text := if second > 0 then toString second ++ "S" else ""
    (if value.days < 0 then "-" else "") ++ "P" ++ toString value.days.natAbs ++ "DT"
      ++ hour_text ++ minute_text ++ second_text

/-- One `{n}{unit}` component of the spec wire form, omitted entirely when
zero. -/
def specDurationComponent (n : ℕ) (unit : String) : String :=
  if n = 0 then "" else toString n ++ unit

/-- The duration wire form as the specification words it: `str(value)`
literally whenever that string is 8 characters or fewer, otherwise
`"[-]P{abs(days)}DT{H}H{M}M{S}S"` with each zero-valued hour, minute and
second component omitted entirely and a leading `-` exactly when `days` is
negative. -/
def specDurationWireForm (td : Timedelta) : String :=
  if (Timedelta.pyStr td).length ≤ 8 then Timedelta.pyStr td
  else
    (if td.days < 0 then "-" else "") ++ "P" ++ toString td.days.natAbs ++ "DT"
      ++ specDurationComponent (td.seconds / 3600) "H"
      ++ specDurationComponent (td.seconds % 3600 / 60) "M"
      ++ specDurationComponent (td.seconds % 60) "S"

/-- The mutable state of `StringValidator` (its `allow_number` attribute,
default `True`); the process-wide shared singleton in `BASE_VALIDATORS` is
built with this default. -/
structure StringValidatorState where
  allow_number : Bool

/-- `StringValidator.maybe_str`, restricted to the value model: a native
string is returned as-is, anything else yields `None` (the byte-string
branch is outside the value model; the claims never pass bytes). -/
def StringValidator.maybe_str (value : PyValue) : Option String :=
  match value with
  | PyValue.str s => some s
  | _ => Option.none

/-- `StringValidator.validate(self, value, allow_number=None)`.  The first
line is the source's `self.allow_number = self.allow_number if
allow_number is None else allow_number`: the per-call override is written
back into the validator object itself, so the updated state is returned
alongside the result.  A non-empty native string passes through; with the
(possibly just-overridden) permissive flag set, booleans and the numeric
kinds are stringified; everything else raises `ValueError`.  (Python float
`str` is rendered via the exact rational; no theorem exercises it.) -/
def StringValidator.validate (self : StringValidatorState) (value : PyValue)
    (allow_number : Option Bool) : Except String PyValue × StringValidatorState :=
  let self : StringValidatorState := { allow_number := allow_number.getD self.allow_number }
  match StringValidator.maybe_str value with
  | some s =>
      if s ≠ "" then (Except.ok (PyValue.str s), self)
      else (Except.error "ValueError: 输入应为有效字符串", self)
  | Option.none =>
      let stringified : Option String :=
        match value with
        | PyValue.bool b => some (if b then "True" else "False")
        | PyValue.int n => some (toString n)
        | PyValue.float q => some (toString q)
        | _ => Option.none
      match self.allow_number, stringified with
      | true, some s => (Except.ok (PyValue.str s), self)
      | _, _ => (Except.error "ValueError: 输入应为有效字符串", self)

/-- One entry of an error location path: a field name / mapping key, or a
positional index. -/
inductive Loc where
  | s (v : String)
  | n (v : ℕ)

/-- Python `str()` of a location entry. -/
def Loc.pyStr : Loc → String
  | Loc.s v => v
  | Loc.n v => toString v

/-- The Python type name of a value in the restricted model. -/
def pyTypeName : PyValue → String
  | PyValue.none => "NoneType"
  | PyValue.bool _ => "bool"
  | PyValue.int _ => "int"
  | PyValue.float _ => "float"
  | PyValue.str _ => "str"
  | PyValue.list _ => "list"
  | PyValue.dict _ => "dict"

/-- `utils._format_type`: a string input is returned as-is (the first
`isinstance(_type, str)` branch fires even when the argument is an
ordinary value rather than a type); any other object falls through to its
class name via `__class__.__name__`.  (The `__name__` branch only applies
to types/functions, which are outside the value model.) -/
def _format_type (v : PyValue) : String :=
  match v with
  | PyValue.str s => s
  | _ => pyTypeName v

/-- Join strings with `", "` (Python container repr separator). -/
def joinComma (l : List String) : String := String.intercalate ", " l

mutual

/-- Python `repr()` over the restricted value model.  String quoting is
simplified to plain single quotes without escape handling; the concrete
inputs used by the theorems contain no quotes. -/
def pyRepr : PyValue → String
  | PyValue.none => "None"
  | PyValue.bool b => if b then "True" else "False"
  | PyValue.int n => toString n
  | PyValue.float q => toString q
  | PyValue.str s => "\x27" ++ s ++ "\x27"
  | PyValue.list xs => "[" ++ joinComma (pyReprList xs) ++ "]"
  | PyValue.dict kvs => "\x7b" ++ joinComma (pyReprDict kvs) ++ "\x7d"

def pyReprList : List PyValue → List String
  | [] => []
  | x :: xs => pyRepr x :: pyReprList xs

def pyReprDict : List (String × PyValue) → List String
  | [] => []
  | (k, v) :: xs => ("\x27" ++ k ++ "\x27: " ++ pyRepr v) :: pyReprDict xs

end

/-- `ErrorDetail`: one structured failure (the optional message-template
context is not read by the report rendering and is elided). -/
structure ErrorDetail where
  loc : List Loc
  input_value : PyValue
  exception_type : String
  msg : String

/-- `ValidationError`: an aggregate of error details plus a title. -/
structure ValidationError where
  title : String
  line_errors : List ErrorDetail

/-- A failure raised by a validate operation: an aggregated
`ValidationError`, a `DataclassCustomError` (kind + message), or a plain
`ValueError`/`TypeError` message. -/
inductive VError where
  | vErr (e : ValidationError)
  | custom (exception_type : String) (msg : String)
  | plain (msg : String)

/-- The bracketed tail of one report entry:
`[exception_type=..., input_value=..., input_type=...]`. -/
def ErrorDetail.entry_end_text (e : ErrorDetail) : String :=
  "[exception_type=" ++ e.exception_type ++ ", input_value=" ++ pyRepr e.input_value
    ++ ", input_type=" ++ _format_type e.input_value ++ "]"

/-- One report entry: the dot-joined location, a newline, then the
two-space-indented message and bracketed tail. -/
def ErrorDetail.entry_line (e : ErrorDetail) : String :=
  String.intercalate "." (e.loc.map Loc.pyStr) ++ "\n  " ++ e.msg ++ " "
    ++ ErrorDetail.entry_end_text e

/-- The loop body of `ValidationError.format_line_errors`: each entry is
followed by `'\n'` unless its index is the last (`length - 1`). -/
def ValidationError.format_line_errors_aux (length index : ℕ) :
    List ErrorDetail → String
  | [] => ""
  | e :: rest =>
      ErrorDetail.entry_line e ++ (if index = length - 1 then "" else "\n")
        ++ ValidationError.format_line_errors_aux length (index + 1) rest

/-- `ValidationError.format_line_errors`. -/
def ValidationError.format_line_errors (ve : ValidationError) : String :=
  ValidationError.format_line_errors_aux ve.line_errors.length 0 ve.line_errors

/-- `ValidationError.__str__`: `"<N> validation error[s] for <title>"`,
the plural `s` exactly when there is more than one error, then the
entries. -/
def ValidationError.pyStr (ve : ValidationError) : String :=
  let plural := if ve.line_errors.length > 1 then "s" else ""
  toString ve.line_errors.length ++ " validation error" ++ plural ++ " for "
    ++ ve.title ++ "\n" ++ ValidationError.format_line_errors ve

/-- Newline-style joining as the specification words it: entries separated
by the separator, with nothing after the last. -/
def joinSep (sep : String) : List String → String
  | [] => ""
  | [x] => x
  | x :: xs => x ++ sep ++ joinSep sep xs

/-- Concrete example errors for a record named `"User"` with two failing
fields (a missing required field, then an unparseable integer field). -/
def userExampleErrors : List ErrorDetail :=
  [{ loc := [Loc.s "name"], input_value := PyValue.dict [("age", PyValue.int 1)],
     exception_type := "missing", msg := "字段为必填项" },
   { loc := [Loc.s "age"], input_value := PyValue.str "abc",
     exception_type := "int_parsing", msg := "输入应为有效整数，无法将字符串解析为整数" }]

/-- The process-wide global settings (`GlobalSetting`): only the default
field-requiredness participates in the claims (locale and i18n flag are
independent read/write cells). -/
structure GlobalSettingState where
  DATACLASS_DEFAULT_REQUIRED : Bool

/-- `GlobalSetting.get_dataclass_default_required`. -/
def GlobalSetting.get_dataclass_default_required (g : GlobalSettingState) : Bool :=
  g.DATACLASS_DEFAULT_REQUIRED

/-- `DataclassConfig`, restricted to the attributes the claims consume:
`required` (default `None`) and `frozen` (default `False`).  The remaining
knobs (title, extra policy, formats, eq/order/hash toggles, ...) are plain
stored values never read by the compiled pipeline. -/
structure DataclassConfig where
  required : Option Bool
  frozen : Bool

/-- `DataclassConfig.__post_init__`: if `required` was left unset, resolve
it from the global settings at configuration construction time. -/
def DataclassConfig.post_init (cfg : DataclassConfig) (g : GlobalSettingState) :
    DataclassConfig :=
  if cfg.required = Option.none then
    { cfg with required := some (GlobalSetting.get_dataclass_default_required g) }
  else cfg

/-- A declared `Field` (named `PyField` here because Lean already uses
`Field`), restricted to the attributes `_generate_field`'s flag-assignment
step touches plus the pieces the deserializer reads.  `validator` is the
field's resolved validate operation. -/
structure PyField where
  name : Option String
  required : Option Bool
  frozen : Option Bool
  default : PyValue
  default_factory : Option (Unit → PyValue)
  validator : PyValue → Except VError PyValue

/-- The field-flag assignment step of `_generate_field`
(`fast_dataclass.py` lines 207-210): once the declared attribute has been
resolved into a `Field`, the compiler assigns `field.name = field_name`,
then `field.required = dataclass_config.required` and `field.frozen =
dataclass_config.frozen` unconditionally (the declared per-field values
are not consulted), then the resolved annotation.  Validator resolution
and pseudo-field classification follow in the source and do not touch
these flags. -/
def generate_field_flags (field : PyField) (field_name : String)
    (dataclass_config : DataclassConfig) : PyField :=
  { field with
      name := some field_name
      required := dataclass_config.required
      frozen := some dataclass_config.frozen }

/-- Python truthiness of an optional boolean attribute (`None` is falsy). -/
def pyTruthyOptBool (o : Option Bool) : Bool := o.getD false

/-- `Field.get_default_value`: the plain default when set, else the result
of the default factory when one is present, else `None`. -/
def PyField.get_default_value (f : PyField) : PyValue :=
  let value := f.default
  if pyIsNone value then
    match f.default_factory with
    | some factory => factory ()
    | Option.none => value
  else value

/-- `catch_validate_error` (`validator.py`): run the validator; on success
return the coerced value with no new errors; on an aggregated
`ValidationError` re-prefix every nested location with the given location
and keep all its details; on a `DataclassCustomError` record one detail
with its kind and message; on a plain `ValueError`/`TypeError` record one
detail whose kind is the source's `_format_exception_type(type(e))` — the
class of a class is `type`, so the recorded kind is literally `"type"`.
The original value is returned whenever the validator failed. -/
def catch_validate_error (v : PyValue) (val : PyValue → Except VError PyValue)
    (loc : List Loc) : PyValue × List ErrorDetail :=
  match val v with
  | Except.ok r => (r, [])
  | Except.error (VError.vErr e) =>
      (v, e.line_errors.map (fun err => { err with loc := loc ++ err.loc }))
  | Except.error (VError.custom t m) =>
      (v, [{ loc := loc, input_value := v, exception_type := t, msg := m }])
  | Except.error (VError.plain m) =>
      (v, [{ loc := loc, input_value := v, exception_type := "type", msg := m }])

/-- Modelled from the spec: `validate_iter_with_catch` is imported by the
deserializer from the validator module but is absent from the source tree
(only `catch_validate_error`, the single-value helper above, is present).
Per the spec (§4.8): run the supplied value through the field's validator,
capturing any raised `ValidationError` (re-prefixing every nested location
with the current field name), `DataclassCustomError` (converted to an
`ErrorDetail`), or a generic value/type failure (likewise converted),
appending the captured details to the running error list; the coerced
value is returned on success and the original value otherwise. -/
def validate_iter_with_catch (v : PyValue) (val : PyValue → Except VError PyValue)
    (loc : List Loc) (errs : List ErrorDetail) : PyValue × List ErrorDetail :=
  match val v with
  | Except.ok r => (r, errs)
  | Except.error (VError.vErr e) =>
      (v, errs ++ e.line_errors.map (fun err => { err with loc := loc ++ err.loc }))
  | Except.error (VError.custom t m) =>
      (v, errs ++ [{ loc := loc, input_value := v, exception_type := t, msg := m }])
  | Except.error (VError.plain m) =>
      (v, errs ++ [{ loc := loc, input_value := v, exception_type := "type", msg := m }])

/-- The `DeserializeError` literal: `'strict'` or `'ignore'`. -/
inductive DeserializeErrorMode where
  | strict
  | ignore
deriving DecidableEq

/-- The per-field loop of `FastDeserializer.deserialize_init` (map-shaped
input; object-shaped input differs only in the attribute lookup).  For
every declared field in order: take the supplied value by key, falling
back to the field's default/default-factory on a missing key; a `None`
value on a required field records one `missing` error at that field's
location (and assigns nothing); a non-`None` value runs through the
field's validator via `validate_iter_with_catch` with the field name as
location; the (possibly coerced) value is assigned regardless of later
fields failing.  Returns the assignments and the recorded errors, both in
field order. -/
def FastDeserializer.process_fields (fields : List (String × PyField))
    (input : List (String × PyValue)) : List (String × PyValue) × List ErrorDetail :=
  match fields with
  | [] => ([], [])
  | (field_name, field) :: rest =>
      let field_value :=
        match pyDictGet input field_name with
        | some v => v
        | Option.none => PyField.get_default_value field
      if pyIsNone field_value && pyTruthyOptBool field.required then
        let tail := FastDeserializer.process_fields rest input
        (tail.1,
          { loc := [Loc.s field_name], input_value := PyValue.dict input,
            exception_type := "missing", msg := "字段为必填项" } :: tail.2)
      else
        let step : PyValue × List ErrorDetail :=
          if pyIsNone field_value then (field_value, [])
          else validate_iter_with_catch field_value (PyField.validator field)
            [Loc.s field_name] []
        let tail := FastDeserializer.process_fields rest input
        ((field_name, step.1) :: tail.1, step.2 ++ tail.2)

/-- `FastDeserializer.deserialize_init`: process every field, then raise
one aggregated `ValidationError` titled with the dataclass name exactly
when errors were recorded and the error mode is not `'ignore'`; otherwise
the assignments stand. -/
def FastDeserializer.deserialize_init (name : String)
    (fields : List (String × PyField)) (input : List (String × PyValue))
    (errors : DeserializeErrorMode) :
    Except ValidationError (List (String × PyValue)) :=
  let run := FastDeserializer.process_fields fields input
  match run.2, errors with
  | [], _ => Except.ok run.1
  | _ :: _, DeserializeErrorMode.ignore => Except.ok run.1
  | e :: es, DeserializeErrorMode.strict =>
      Except.error { title := name, line_errors := e :: es }

/-- `ValidationError.error_count`. -/
def ValidationError.error_count (ve : ValidationError) : ℕ := ve.line_errors.length

/-- A required field with no default and a pass-through validator. -/
def c1RequiredField : PyField :=
  { name := Option.none, required := some true, frozen := Option.none,
    default := PyValue.none, default_factory := Option.none,
    validator := fun v => Except.ok v }

/-- A required field whose validator fails with a nested aggregated error
located at index 0 (as a `list[int]` item failure would be). -/
def c1NestedFailField : PyField :=
  { name := Option.none, required := some true, frozen := Option.none,
    default := PyValue.none, default_factory := Option.none,
    validator := fun _ => Except.error (VError.vErr
      { title := "list[int]",
        line_errors := [{ loc := [Loc.n 0], input_value := PyValue.str "x",
                          exception_type := "int_parsing",
                          msg := "输入应为有效整数，无法将字符串解析为整数" }] }) }

/-- The aggregated error produced by constructing a two-required-field
record from an empty map. -/
def c1TwoMissingError : ValidationError :=
  { title := "User",
    line_errors :=
      [{ loc := [Loc.s "a"], input_value := PyValue.dict [],
         exception_type := "missing", msg := "字段为必填项" },
       { loc := [Loc.s "b"], input_value := PyValue.dict [],
         exception_type := "missing", msg := "字段为必填项" }] }

/-- `check_collection_length`: raise `iter_too_short` when a minimum bound
is declared and the length is below it, else `iter_too_long` when a
maximum bound is declared and the length is above it.  `text` is the
localized name the source looks up for the annotation (`"生成器"` for
`Generator`). -/
def check_collection_length (text : String) (length : ℕ)
    (min_length max_length : Option ℕ) : Except (String × String) Unit :=
  match min_length with
  | some minL =>
      if length < minL then
        Except.error ("iter_too_short",
          text ++ "最小应包含" ++ toString minL ++ "项，而不是" ++ toString length ++ "项")
      else
        match max_length with
        | some maxL =>
            if length > maxL then
              Except.error ("iter_too_long",
                text ++ "最多应包含" ++ toString maxL ++ "项，而不是" ++ toString length ++ "项")
            else Except.ok ()
        | Option.none => Except.ok ()
  | Option.none =>
      match max_length with
      | some maxL =>
          if length > maxL then
            Except.error ("iter_too_long",
              text ++ "最多应包含" ++ toString maxL ++ "项，而不是" ++ toString length ++ "项")
          else Except.ok ()
      | Option.none => Except.ok ()

/-- Python `iter(value)` over the restricted model: lists yield their
items, strings their characters, dicts their keys; numbers, booleans and
`None` are not iterable. -/
def pyIterElems : PyValue → Option (List PyValue)
  | PyValue.list xs => some xs
  | PyValue.str s => some (s.data.map (fun c => PyValue.str (String.mk [c])))
  | PyValue.dict kvs => some (kvs.map (fun kv => PyValue.str kv.1))
  | _ => Option.none

/-- `GeneratorIterator`: the lazily-validating wrapper.  `iterable` is the
remaining suffix of the wrapped generator `(v for v in value)`. -/
structure GeneratorIterator where
  iterable : List PyValue
  validator : PyValue → Except VError PyValue
  min_length : Option ℕ
  max_length : Option ℕ
  index : ℕ

/-- `GeneratorValidator.validate`: a non-iterable input fails with
`iterable_type`; an iterable input is wrapped — no item is touched yet. -/
def GeneratorValidator.validate (item_validator : PyValue → Except VError PyValue)
    (min_length max_length : Option ℕ) (value : PyValue) :
    Except (String × String) GeneratorIterator :=
  match pyIterElems value with
  | Option.none => Except.error ("iterable_type", "输入应为可迭代类型")
  | some elems =>
      Except.ok { iterable := elems, validator := item_validator,
                  min_length := min_length, max_length := max_length, index := 0 }

/-- `GeneratorIterator.__iter__`: returns `self.iterable` — the wrapped
generator itself, not the validating wrapper — so the standard iteration
protocol consumes raw items. -/
def GeneratorIterator.iter (w : GeneratorIterator) : List PyValue := w.iterable

/-- `GeneratorIterator.__next__`: pull one raw item, validate it at the
current index, re-check the running count against the declared length
bounds, and raise one aggregated single-item `ValidationError`
immediately when anything failed; `Except.error Option.none` is
`StopIteration`.  (On failure the underlying item is already consumed and
the index is not advanced, as in the source.) -/
def GeneratorIterator.next (w : GeneratorIterator) :
    Except (Option ValidationError) (PyValue × GeneratorIterator) :=
  match w.iterable with
  | [] => Except.error Option.none
  | x :: rest =>
      let step := catch_validate_error x w.validator [Loc.n w.index]
      let errs :=
        match check_collection_length "生成器" (w.index + 1) w.min_length w.max_length with
        | Except.ok _ => step.2
        | Except.error e =>
            step.2 ++ [{ loc := [Loc.n w.index], input_value := step.1,
                         exception_type := e.1, msg := e.2 }]
      match errs with
      | [] => Except.ok (step.1, { w with iterable := rest, index := w.index + 1 })
      | e :: es =>
          Except.error (some { title := "GeneratorIterator", line_errors := e :: es })

/-- An item validator that rejects everything with `int_parsing` (used to
show that standard iteration bypasses it). -/
def c10FailValidator : PyValue → Except VError PyValue :=
  fun _ => Except.error (VError.custom "int_parsing" "输入应为有效整数，无法将字符串解析为整数")

/-- The aggregated error the wrapper's own `next` raises on the first item
`"a"` under `c10FailValidator` with a declared minimum length of 5: the
item failure plus the running-length failure, both at index 0. -/
def c10ExpectedError : ValidationError :=
  { title := "GeneratorIterator",
    line_errors :=
      [{ loc := [Loc.n 0], input_value := PyValue.str "a",
         exception_type := "int_parsing", msg := "输入应为有效整数，无法将字符串解析为整数" },
       { loc := [Loc.n 0], input_value := PyValue.str "a",
         exception_type := "iter_too_short", msg := "生成器最小应包含5项，而不是1项" }] }

/-- `SerMode`: the serialization mode enumeration. -/
inductive SerMode where
  | python
  | json
  | string
deriving DecidableEq

/-- The `SerializeError` policy literal: `ignore` / `warn` / `error`. -/
inductive SerializeError where
  | ignore
  | warn
  | error
deriving DecidableEq

/-- `SerCheck`: the union serializer temporarily tightens this; at the
record level it stays `NONE`. -/
inductive SerCheck where
  | NONE
  | ENABLED
  | LAX
deriving DecidableEq

/-- `SerParameter`: the serialization parameter bundle.  The fallback
callable, context, and the unimplemented include/exclude filters are
inert for the claims and elided. -/
structure SerParameter where
  mode : SerMode
  by_alias : Bool
  exclude_unset : Bool
  exclude_none : Bool
  errors : SerializeError
  error_messages : List String
  check : SerCheck

/-- `SerParameter.__init__` with every default argument:
`mode='python'`, `by_alias=True`, `exclude_unset=False`,
`exclude_none=False`, `errors='warn'`, empty message list, check `NONE`. -/
def SerParameter.default_init : SerParameter :=
  { mode := SerMode.python, by_alias := true, exclude_unset := false,
    exclude_none := false, errors := SerializeError.warn,
    error_messages := [], check := SerCheck.NONE }

/-- The outcome of `SerParameter.check_error`: nothing, one process
warning, or one raised `SerializationError`. -/
inductive CheckOutcome where
  | ok
  | warned (msg : String)
  | raisedErr (msg : String)
deriving DecidableEq

/-- `SerParameter.check_error`: under `ignore` return immediately (the
diagnostics are dropped); otherwise bundle every accumulated message into
one `"Fast serializer warnings:"` text; raise it as a `SerializationError`
under `error`, emit it as one process warning under `warn` — in both cases
only when at least one message was recorded. -/
def SerParameter.check_error (p : SerParameter) : CheckOutcome :=
  if p.errors = SerializeError.ignore then CheckOutcome.ok
  else
    let error_msg := "Fast serializer warnings:\n  "
      ++ String.intercalate "\n  " p.error_messages
    if p.error_messages ≠ [] ∧ p.errors = SerializeError.error then
      CheckOutcome.raisedErr error_msg
    else if p.error_messages ≠ [] ∧ p.errors = SerializeError.warn then
      CheckOutcome.warned error_msg
    else CheckOutcome.ok

/-- One compiled field of the record-level serializer, abstracted to its
dispatch behavior: given the requested mode and the stored value, produce
the output value plus any type-mismatch diagnostic messages it appends to
the shared parameter bundle (field serializers only ever append messages;
they never read the error policy). -/
structure SerField where
  dispatch : SerMode → PyValue → PyValue × List String

/-- The per-field loop of `FastSerializer.to_python`: for every declared
field in order, fetch the stored value from the instance dict (`None`
when absent), skip it when `exclude_none` is set and the value is `None`,
otherwise dispatch the field's serializer in the requested mode and
collect its output and its appended diagnostic messages. -/
def FastSerializer.run_fields (fields : List (String × SerField))
    (dict_value : List (String × PyValue)) (mode : SerMode)
    (exclude_none : Bool) : List (String × PyValue) × List String :=
  match fields with
  | [] => ([], [])
  | (field_name, field) :: rest =>
      let serialize_value := (pyDictGet dict_value field_name).getD PyValue.none
      if exclude_none && pyIsNone serialize_value then
        FastSerializer.run_fields rest dict_value mode exclude_none
      else
        let step := SerField.dispatch field mode serialize_value
        let tail := FastSerializer.run_fields rest dict_value mode exclude_none
        ((field_name, step.1) :: tail.1, step.2 ++ tail.2)

/-- The observable outcome of a record-level serialization call: the
output dict plus the process warnings emitted, or one raised
`SerializationError`. -/
inductive SerResult where
  | ok (out : List (String × PyValue)) (warnings : List String)
  | raised (msg : String)

/-- `FastSerializer.to_python`: build the parameter bundle, process every
field (accumulating mismatch diagnostics into it), and only then — once,
at the end of the whole call — apply `check_error` under the selected
policy. -/
def FastSerializer.to_python (fields : List (String × SerField))
    (dict_value : List (String × PyValue)) (mode : SerMode)
    (exclude_none : Bool) (errors : SerializeError) : SerResult :=
  let run := FastSerializer.run_fields fields dict_value mode exclude_none
  let ser_parameter : SerParameter :=
    { mode := mode, by_alias := true, exclude_unset := false,
      exclude_none := exclude_none, errors := errors,
      error_messages := run.2, check := SerCheck.NONE }
  match SerParameter.check_error ser_parameter with
  | CheckOutcome.ok => SerResult.ok run.1 []
  | CheckOutcome.warned m => SerResult.ok run.1 [m]
  | CheckOutcome.raisedErr m => SerResult.raised m

/-- The numeric value of a nonempty all-digit character run. -/
def digitsVal? (cs : List Char) : Option ℕ :=
  if cs.isEmpty then Option.none
  else cs.foldl (fun acc c =>
    match acc with
    | some n => if c.isDigit then some (n * 10 + (c.toNat - 48)) else Option.none
    | Option.none => Option.none) (some 0)

/-- Strip one optional leading sign; the flag is whether it was `-`. -/
def splitSign : List Char → Bool × List Char
  | c :: rest => if c = '-' then (true, rest) else if c = '+' then (false, rest) else (false, c :: rest)
  | [] => (false, [])

/-- Python `int(s)` for a plain decimal string (optional sign, digits). -/
def pyIntOfChars (cs : List Char) : Option ℤ :=
  let sd := splitSign cs
  (digitsVal? sd.2).map (fun n => if sd.1 then -(n : ℤ) else (n : ℤ))

/-- Split a character list on a delimiter (structural analogue of
`str.split`). -/
def splitListOn (delim : Char) : List Char → List (List Char)
  | [] => [[]]
  | c :: rest =>
      let r := splitListOn delim rest
      if c = delim then [] :: r
      else
        match r with
        | h :: t => (c :: h) :: t
        | [] => [[c]]

/-- Python `int(float(s))`: an optional sign, an integer part and an
optional fractional part (`"2024.0"` parses, `"2024-02-04"` does not);
`int()` then truncates the fraction away toward zero.  Exponent/inf/nan
float spellings are outside the model; no claim input uses them. -/
def pyIntOfFloatStr (s : String) : Option ℤ :=
  match splitListOn '.' s.data with
  | [whole] => pyIntOfChars whole
  | [whole, frac] =>
      let sd := splitSign whole
      if (sd.2.all Char.isDigit) && (frac.all Char.isDigit)
          && (!sd.2.isEmpty || !frac.isEmpty) then
        let n := (digitsVal? sd.2).getD 0
        some (if sd.1 then -(n : ℤ) else (n : ℤ))
      else Option.none
  | _ => Option.none

/-- `datetime.MAXYEAR`. -/
def pyMAXYEAR : ℤ := 9999

/-- `DatetimeValidator.year_length = len(str(datetime.MAXYEAR))`. -/
def DatetimeValidator.year_length : ℕ := (toString pyMAXYEAR).length

/-- `DatetimeValidator.month_length`. -/
def DatetimeValidator.month_length : ℕ := 2

/-- `DatetimeValidator.day_length`. -/
def DatetimeValidator.day_length : ℕ := 2

/-- `DatetimeValidator.date_length = year_length + month_length +
day_length`. -/
def DatetimeValidator.date_length : ℕ :=
  DatetimeValidator.year_length + DatetimeValidator.month_length
    + DatetimeValidator.day_length

/-- `DatetimeValidator.timestamp_length = len(str(int(time.time())))`,
sampled once at module load: 10 digits for any load time between 2001 and
2286. -/
def DatetimeValidator.timestamp_length : ℕ := 10

/-- A parsed Python `datetime`: either a civil calendar value or a value
produced from a Unix timestamp (`datetime.fromtimestamp` is a fixed
function of its numeric argument and the local zone, so equal arguments
give equal datetimes). -/
inductive PyDatetime where
  | civil (year month day hour minute second : ℕ)
  | fromTimestamp (t : ℚ)
deriving DecidableEq

/-- Gregorian leap-year rule. -/
def isLeapYear (y : ℕ) : Bool := (y % 4 == 0) && (y % 100 != 0 || y % 400 == 0)

/-- Days in a Gregorian month. -/
def daysInMonth (y m : ℕ) : ℕ :=
  if m = 2 then (if isLeapYear y then 29 else 28)
  else if m = 4 ∨ m = 6 ∨ m = 9 ∨ m = 11 then 30
  else 31

/-- The `datetime.datetime(year, month, day)` constructor: range-checks
its arguments (raising `ValueError`, surfaced by the validator as
`datetime_parsing`) and defaults the time to midnight. -/
def pyDatetimeCtor (y m d : ℤ) : Except String PyDatetime :=
  if 1 ≤ y ∧ y ≤ pyMAXYEAR ∧ 1 ≤ m ∧ m ≤ 12 ∧ 1 ≤ d
      ∧ d ≤ (daysInMonth y.toNat m.toNat : ℤ) then
    Except.ok (PyDatetime.civil y.toNat m.toNat d.toNat 0 0 0)
  else Except.error "datetime_parsing"

/-- Valid time-of-day components. -/
def timeValid (hh mi ss : ℕ) : Bool := hh < 24 && mi < 60 && ss < 60

/-- `datetime.strptime(value, "%Y<delim>%m<delim>%d")`: three all-digit
groups separated by the delimiter, range-checked; every failure surfaces
as the caller-selected error kind. -/
def strptime_date (value : String) (delim : Char) (errKind : String) :
    Except String PyDatetime :=
  match splitListOn delim value.data with
  | [ys, ms, ds] =>
      match digitsVal? ys, digitsVal? ms, digitsVal? ds with
      | some y, some m, some d =>
          match pyDatetimeCtor (y : ℤ) (m : ℤ) (d : ℤ) with
          | Except.ok dt => Except.ok dt
          | Except.error _ => Except.error errKind
      | _, _, _ => Except.error errKind
  | _ => Except.error errKind

/-- `datetime.strptime` for `"%Y<d>%m<d>%d %H:%M"` (and with `:%S` when
`withSeconds`). -/
def strptime_datetime (value : String) (delim : Char) (withSeconds : Bool)
    (errKind : String) : Except String PyDatetime :=
  match splitListOn ' ' value.data with
  | [datePart, timePart] =>
      match strptime_date (String.mk datePart) delim errKind with
      | Except.error e => Except.error e
      | Except.ok (PyDatetime.fromTimestamp _) => Except.error errKind
      | Except.ok (PyDatetime.civil y m d _ _ _) =>
          match splitListOn ':' timePart, withSeconds with
          | [hs, mins], false =>
              match digitsVal? hs, digitsVal? mins with
              | some hh, some mi =>
                  if timeValid hh mi 0 then Except.ok (PyDatetime.civil y m d hh mi 0)
                  else Except.error errKind
              | _, _ => Except.error errKind
          | [hs, mins, ss], true =>
              match digitsVal? hs, digitsVal? mins, digitsVal? ss with
              | some hh, some mi, some sec =>
                  if timeValid hh mi sec then Except.ok (PyDatetime.civil y m d hh mi sec)
                  else Except.error errKind
              | _, _, _ => Except.error errKind
          | _, _ => Except.error errKind
  | _ => Except.error errKind

/-- `datetime.fromisoformat`, restricted to the
`"YYYY-MM-DD[T| ]HH:MM:SS"` core (fractional seconds and offsets are
outside the model); failures surface as
`datetime_from_rfc3339_parsing`. -/
def pyFromIsoformat (value : String) : Except String PyDatetime :=
  let kind := "datetime_from_rfc3339_parsing"
  if value.length = 10 then strptime_date value '-' kind
  else if value.length = 19 then
    let cs := value.data
    let datePart := String.mk (cs.take 10)
    let sep := cs.drop 10 |>.head?
    let timePart := cs.drop 11
    if sep = some 'T' ∨ sep = some ' ' then
      match strptime_date datePart '-' kind with
      | Except.error e => Except.error e
      | Except.ok (PyDatetime.fromTimestamp _) => Except.error kind
      | Except.ok (PyDatetime.civil y m d _ _ _) =>
          match splitListOn ':' timePart with
          | [hs, mins, ss] =>
              match digitsVal? hs, digitsVal? mins, digitsVal? ss with
              | some hh, some mi, some sec =>
                  if timeValid hh mi sec then Except.ok (PyDatetime.civil y m d hh mi sec)
                  else Except.error kind
              | _, _, _ => Except.error kind
          | _ => Except.error kind
    else Except.error kind
  else Except.error kind

/-- `DatetimeValidator.get_delimiter`: `/` when present, else `.` when
present, else `-`. -/
def DatetimeValidator.get_delimiter (value : String) : Char :=
  if value.data.any (fun c => c == '/') then '/'
  else if value.data.any (fun c => c == '.') then '.'
  else '-'

/-- `DatetimeValidator.timestamp_to_datetime`: divide by 1000 (true
division) before conversion when the integer has more digits than the
load-time timestamp length; `fromtimestamp` on the (possibly fractional)
result. -/
def DatetimeValidator.timestamp_to_datetime (value : ℤ) : PyDatetime :=
  if (toString value).length > DatetimeValidator.timestamp_length then
    PyDatetime.fromTimestamp ((value : ℚ) / 1000)
  else PyDatetime.fromTimestamp (value : ℚ)

/-- `DatetimeValidator.str_or_int_to_datetime`: classify the string form
purely by length and integer-parseability (via a float parse first).
The source's single `elif` ladder is split here by whether the float
parse produced a value; the two ladders cover disjoint source branches
(`int_value` truthy vs `int_value is None`), so the order is preserved. -/
def DatetimeValidator.str_or_int_to_datetime (value : String) :
    Except String PyDatetime :=
  let length := value.length
  if length < DatetimeValidator.year_length then Except.error "datetime_parsing"
  else
    match pyIntOfFloatStr value with
    | some int_value =>
        if int_value ≠ 0 ∧ int_value < pyMAXYEAR then
          pyDatetimeCtor int_value 1 1
        else if length = DatetimeValidator.date_length ∧ int_value ≠ 0 then
          match pyIntOfChars (value.data.take DatetimeValidator.year_length),
                pyIntOfChars ((value.data.drop DatetimeValidator.year_length).take 2),
                pyIntOfChars (value.data.drop (DatetimeValidator.year_length + 2)) with
          | some y, some m, some d => pyDatetimeCtor y m d
          | _, _, _ => Except.error "datetime_parsing"
        else if length = DatetimeValidator.date_length + 2 ∧ int_value ≠ 0 then
          Except.ok (PyDatetime.fromTimestamp (int_value : ℚ))
        else if length = DatetimeValidator.date_length + 5 ∧ int_value ≠ 0 then
          Except.ok (DatetimeValidator.timestamp_to_datetime int_value)
        else if (DatetimeValidator.date_length + 10 ≥ length
            ∧ length ≥ DatetimeValidator.date_length + 6) ∧ int_value ≠ 0 then
          Except.ok (DatetimeValidator.timestamp_to_datetime int_value)
        else Except.error "datetime_parsing"
    | Option.none =>
        if length = DatetimeValidator.date_length + 2 then
          strptime_date value (DatetimeValidator.get_delimiter value) "date_parsing"
        else if length = DatetimeValidator.date_length + 8 then
          strptime_datetime value (DatetimeValidator.get_delimiter value) false
            "datetime_parsing"
        else if length = DatetimeValidator.date_length + 11
            ∧ ¬ value.data.any (fun c => c == 'T') then
          strptime_datetime value (DatetimeValidator.get_delimiter value) true
            "datetime_parsing"
        else if length ≥ DatetimeValidator.date_length + 11 then
          pyFromIsoformat value
        else Except.error "datetime_parsing"

/-- The numeric branch of `DatetimeValidator.validate`: an int/float input
goes through `int()` and then `str_or_int_to_datetime` on its decimal
string form. -/
def DatetimeValidator.validate_number (value : ℤ) : Except String PyDatetime :=
  DatetimeValidator.str_or_int_to_datetime (toString value)

/-- The runtime classes that can appear as (the origin of) a type
annotation in the claims. -/
inductive PyType where
  | list
  | tuple
  | set
  | frozenset
  | dict
  | deque
  | counter
  | str
  | int
  | bool
  | fastDataclassClass
  | pydanticModelClass
  | otherClass (name : String)
deriving DecidableEq

/-- The abstract bases the type parser's `issubclass_safe` checks test
against (each `typing` alias delegates its subclass check to its
origin). -/
inductive AbcT where
  | collectionA
  | iterableA
  | listA
  | tupleA
  | setA
  | mappingA
  | dictA
  | sequenceA
  | counterA
deriving DecidableEq

/-- Builtin subclass facts: `issubclass(t, ...)` for the bases above
(`Counter` is a `dict` subclass; `str` is a `Collection`/`Sequence`;
`frozenset` is not a subclass of `set`). -/
def PyType.subclassOf (t : PyType) (c : AbcT) : Bool :=
  match c with
  | AbcT.collectionA | AbcT.iterableA =>
      match t with
      | PyType.list | PyType.tuple | PyType.set | PyType.frozenset
      | PyType.dict | PyType.deque | PyType.counter | PyType.str => true
      | _ => false
  | AbcT.listA => t == PyType.list
  | AbcT.tupleA => t == PyType.tuple
  | AbcT.setA => t == PyType.set
  | AbcT.mappingA | AbcT.dictA => t == PyType.dict || t == PyType.counter
  | AbcT.sequenceA =>
      match t with
      | PyType.list | PyType.tuple | PyType.str | PyType.deque => true
      | _ => false
  | AbcT.counterA => t == PyType.counter

/-- A type annotation as the type parser sees it.  `none` is the absent
annotation; `typingAlias t` is an unsubscripted `typing` alias whose
origin is the builtin `t`; `subscriptedType t args` is a parameterized
generic; `functionVal` is a plain function object. -/
inductive Ann where
  | none
  | any
  | optionalBare
  | optionalOf (a : Ann)
  | unionBare
  | unionOf (args : List Ann)
  | literalBare
  | literalOf (nargs : ℕ)
  | classVarBare
  | classVarOf (a : Ann)
  | finalBare
  | finalOf (a : Ann)
  | noReturn
  | iterableAlias
  | typeOf (t : PyType)
  | typingAlias (t : PyType)
  | subscriptedType (t : PyType) (args : List Ann)
  | functionVal

/-- `typing.get_origin`: `Optional[X]` is `Union[X, None]`, so its origin
is the `Union` form; subscripted special forms return their form;
`typing` aliases and parameterized generics return the builtin origin;
everything else (plain classes, bare special forms, `None`) has no
origin. -/
def Ann.getOrigin : Ann → Ann
  | Ann.optionalOf _ => Ann.unionBare
  | Ann.unionOf _ => Ann.unionBare
  | Ann.literalOf _ => Ann.literalBare
  | Ann.classVarOf _ => Ann.classVarBare
  | Ann.finalOf _ => Ann.finalBare
  | Ann.typingAlias t => Ann.typeOf t
  | Ann.subscriptedType t _ => Ann.typeOf t
  | _ => Ann.none

/-- The `_name` attribute `typing` puts on its forms (`Union[X, None]`
carries `_name = 'Optional'`); builtin classes have none. -/
def Ann.annName : Ann → Option String
  | Ann.optionalBare => some "Optional"
  | Ann.optionalOf _ => some "Optional"
  | Ann.unionBare => some "Union"
  | Ann.literalBare => some "Literal"
  | Ann.classVarBare => some "ClassVar"
  | Ann.finalBare => some "Final"
  | Ann.iterableAlias => some "Iterable"
  | _ => Option.none

/-- `TypeParser.is_any`: `None` guard, then `value is Any`. -/
def TypeParser.is_any : Ann → Bool
  | Ann.none => false
  | Ann.any => true
  | _ => false

/-- `TypeParser.is_optional`: `None` guard, then `annotation is Optional
or annotation._name == 'Optional' or annotation is Any`. -/
def TypeParser.is_optional : Ann → Bool
  | Ann.none => false
  | Ann.optionalBare => true
  | Ann.any => true
  | a => a.annName == some "Optional"

/-- `TypeParser.is_no_return`: `None` guard, then `value is NoReturn`. -/
def TypeParser.is_no_return : Ann → Bool
  | Ann.none => false
  | Ann.noReturn => true
  | _ => false

/-- `TypeParser.is_union`: `None` guard, then the origin is the `Union`
form (or carries `_name == 'Union'`, which only that form does) — note
`Optional[X]` also satisfies this, which is why the validator matcher
tests `is_optional` first. -/
def TypeParser.is_union (a : Ann) : Bool :=
  match a with
  | Ann.none => false
  | a =>
      match a.getOrigin with
      | Ann.unionBare => true
      | o => o.annName == some "Union"

/-- `TypeParser.is_literal`: `None` guard, then the origin is the
`Literal` form (or carries `_name == 'Literal'`). -/
def TypeParser.is_literal (a : Ann) : Bool :=
  match a with
  | Ann.none => false
  | a =>
      match a.getOrigin with
      | Ann.literalBare => true
      | o => o.annName == some "Literal"

/-- `TypeParser.is_final`: `None` guard, then `value is Final` or the
origin carries `_name == 'Final'`. -/
def TypeParser.is_final (a : Ann) : Bool :=
  match a with
  | Ann.none => false
  | Ann.finalBare => true
  | a => a.getOrigin.annName == some "Final"

/-- `TypeParser.is_class_var`: `None` guard, then `value is ClassVar` or
the origin carries `_name == 'ClassVar'`. -/
def TypeParser.is_class_var (a : Ann) : Bool :=
  match a with
  | Ann.none => false
  | Ann.classVarBare => true
  | a => a.getOrigin.annName == some "ClassVar"

/-- `TypeParser.is_collection`: `None` guard, then
`issubclass_safe(get_origin(value), Collection)` — false whenever the
origin is absent or not a class. -/
def TypeParser.is_collection (a : Ann) : Bool :=
  match a with
  | Ann.none => false
  | a =>
      match a.getOrigin with
      | Ann.typeOf t => PyType.subclassOf t AbcT.collectionA
      | _ => false

/-- `TypeParser.is_deque`: `None` guard, then
`isinstance_safe(value, collections.deque)` — an annotation object is
never a `deque` instance, so this is false for every annotation. -/
def TypeParser.is_deque : Ann → Bool
  | Ann.none => false
  | _ => false

/-- `TypeParser.is_iterable`: `None` guard, then `value is Iterable` or
`issubclass_safe(get_origin(value), Iterable)`. -/
def TypeParser.is_iterable (a : Ann) : Bool :=
  match a with
  | Ann.none => false
  | Ann.iterableAlias => true
  | a =>
      match a.getOrigin with
      | Ann.typeOf t => PyType.subclassOf t AbcT.iterableA
      | _ => false

/-- `TypeParser.is_list`: `None` guard, then `isinstance_safe(value,
list)` (false for annotation objects) or `issubclass_safe(get_origin(
value), List)`. -/
def TypeParser.is_list (a : Ann) : Bool :=
  match a with
  | Ann.none => false
  | a =>
      match a.getOrigin with
      | Ann.typeOf t => PyType.subclassOf t AbcT.listA
      | _ => false

/-- `TypeParser.is_tuple`: as `is_list` with `Tuple`. -/
def TypeParser.is_tuple (a : Ann) : Bool :=
  match a with
  | Ann.none => false
  | a =>
      match a.getOrigin with
      | Ann.typeOf t => PyType.subclassOf t AbcT.tupleA
      | _ => false

/-- `TypeParser.is_set`: as `is_list` with `Set`. -/
def TypeParser.is_set (a : Ann) : Bool :=
  match a with
  | Ann.none => false
  | a =>
      match a.getOrigin with
      | Ann.typeOf t => PyType.subclassOf t AbcT.setA
      | _ => false

/-- `TypeParser.is_mapping`: `None` guard, then
`issubclass_safe(get_origin(value), Mapping)`. -/
def TypeParser.is_mapping (a : Ann) : Bool :=
  match a with
  | Ann.none => false
  | a =>
      match a.getOrigin with
      | Ann.typeOf t => PyType.subclassOf t AbcT.mappingA
      | _ => false

/-- `TypeParser.is_dict`: `None` guard, then `value is Dict` or
`isinstance_safe(value, dict)` (false for annotation objects) or
`issubclass_safe(get_origin(value), Dict)`. -/
def TypeParser.is_dict (a : Ann) : Bool :=
  match a with
  | Ann.none => false
  | Ann.typingAlias PyType.dict => true
  | a =>
      match a.getOrigin with
      | Ann.typeOf t => PyType.subclassOf t AbcT.dictA
      | _ => false

/-- `TypeParser.is_sequence`: `None` guard, then
`issubclass_safe(get_origin(value), Sequence)`. -/
def TypeParser.is_sequence (a : Ann) : Bool :=
  match a with
  | Ann.none => false
  | a =>
      match a.getOrigin with
      | Ann.typeOf t => PyType.subclassOf t AbcT.sequenceA
      | _ => false

/-- `TypeParser.is_counter`: `None` guard, then
`issubclass_safe(get_origin(value), Counter)`. -/
def TypeParser.is_counter (a : Ann) : Bool :=
  match a with
  | Ann.none => false
  | a =>
      match a.getOrigin with
      | Ann.typeOf t => PyType.subclassOf t AbcT.counterA
      | _ => false

/-- `TypeParser.is_function`: `isinstance_safe(value, FunctionType)` —
no `None` guard, but `isinstance` of `None` is simply false. -/
def TypeParser.is_function : Ann → Bool
  | Ann.functionVal => true
  | _ => false

/-- `TypeParser.is_pydantic_model`: duck-typed `hasattr(value,
'model_fields') and hasattr(value, '__pydantic_validator__')`; `None`
has neither attribute. -/
def TypeParser.is_pydantic_model : Ann → Bool
  | Ann.typeOf PyType.pydanticModelClass => true
  | _ => false

/-- `TypeParser.get_origin_safe`: plain `typing.get_origin`, which never
raises and yields `None` on `None`. -/
def TypeParser.get_origin_safe (v : Ann) : Ann := Ann.getOrigin v

/-- `TypeParser.is_fast_dataclass` as actually invoked
(`type_parser.is_fast_dataclass(annotation)`, e.g. `validator.py:407`):
the method is declared as `def is_fast_dataclass(obj):` with no `self`
parameter, so the bound call passes two positional arguments to a
one-parameter function and raises `TypeError` before the body runs — for
every argument, including `None`. -/
def TypeParser.is_fast_dataclass_boundcall (_ : Ann) : Except String Bool :=
  Except.error
    "TypeError: is_fast_dataclass() takes 1 positional argument but 2 were given"

/-- The body `is_fast_dataclass` was written to have (reachable only via
an unbound call): `cls = obj if isinstance(obj, type) else type(obj);
hasattr(cls, 'dataclass_fields')` — true exactly for compiled record
classes; `type(None)` lacks the attribute, so `None` gives false. -/
def TypeParser.is_fast_dataclass_function : Ann → Bool
  | Ann.typeOf PyType.fastDataclassClass => true
  | _ => false

-- ===================== THEOREMS =====================

/-- Components written `if n > 0 then text else ""` and
`if n = 0 then "" else text` agree on naturals. -/
theorem duration_component_eq (n : ℕ) (unit : String) :
    (if n > 0 then toString n ++ unit else "") = specDurationComponent n unit := by
  rcases Nat.eq_zero_or_pos n with h | h
  · simp [h, specDurationComponent]
  · simp [specDurationComponent, h, Nat.pos_iff_ne_zero.mp h]

/-- Claim C3, counterexample: at the float input `-1.0` the code returns
`0` (truncation toward zero of `-0.89` is `0`, which exceeds the plain
truncation `-1`), while the claimed `floor`-based formula yields `-1`
(`floor(-0.89) = -1` does not exceed the truncation `-1`). -/
theorem c3_float_tolerance_counterexample :
    IntegerValidator.float_or_decimal_to_int NumKind.float (-1) false = Except.ok 0 ∧
    (if pyTrunc (-1 : ℚ) < ⌊(-1 : ℚ) + IntegerValidator.half_adjust_value⌋ then
        ⌊(-1 : ℚ) + IntegerValidator.half_adjust_value⌋
      else pyTrunc (-1 : ℚ)) = -1 ∧
    (0 : ℤ) ≠ -1 := by
  have h1 : pyTrunc (-1 : ℚ) = -1 := by
    rw [pyTrunc, if_neg (by norm_num),
      show ((-1 : ℚ)) = ((-1 : ℤ) : ℚ) by norm_num, Int.ceil_intCast]
  have h2 : pyTrunc ((-1 : ℚ) + IntegerValidator.half_adjust_value) = 0 := by
    rw [show (-1 : ℚ) + IntegerValidator.half_adjust_value = -89/100 by
      norm_num [IntegerValidator.half_adjust_value]]
    rw [pyTrunc, if_neg (by norm_num), Int.ceil_eq_iff]
    norm_num
  have h3 : ⌊(-1 : ℚ) + IntegerValidator.half_adjust_value⌋ = -1 := by
    rw [show (-1 : ℚ) + IntegerValidator.half_adjust_value = -89/100 by
      norm_num [IntegerValidator.half_adjust_value]]
    rw [Int.floor_eq_iff]
    norm_num
  refine ⟨?_, ?_, by decide⟩
  · simp only [IntegerValidator.float_or_decimal_to_int, h1, h2]
    norm_num
  · rw [h3, h1]
    norm_num

/-- Claim C3 (amended): for float inputs the integer coercion returns
`trunc(value + 0.11)` when that exceeds `trunc(value)`, else
`trunc(value)` — truncation toward zero (Python `int()`), not `floor` —
equivalently the maximum of the two truncations; for high-precision
decimal inputs the tolerance path is never correctly applied: the default
invocation adds the float constant `0.11` to the decimal and fails with a
type error. -/
theorem c3_float_tolerance_amended (value : ℚ) :
    IntegerValidator.float_or_decimal_to_int NumKind.float value false
      = Except.ok (max (pyTrunc (value + IntegerValidator.half_adjust_value)) (pyTrunc value)) ∧
    IntegerValidator.float_or_decimal_to_int NumKind.dec value false
      = Except.error "TypeError: unsupported operand type(s) for +: Decimal and float" := by
  constructor
  · simp only [IntegerValidator.float_or_decimal_to_int]
    congr 1
    rcases le_or_lt (pyTrunc (value + IntegerValidator.half_adjust_value)) (pyTrunc value) with h | h
    · rw [if_neg (by omega), max_eq_right h]
    · rw [if_pos h, max_eq_left (le_of_lt h)]
  · rfl

/-- Claim C4: wire-safe serialization of a duration returns `str(value)`
literally whenever that string is 8 characters or fewer, and otherwise
`"[-]P{abs(days)}DT{H}H{M}M{S}S"` with each zero-valued hour/minute/second
component omitted entirely and a leading `-` exactly when `days` is
negative; a one-hour duration serializes to `"1:00:00"` and a
two-day-three-hour duration to `"P2DT3H"`. -/
theorem c4_timedelta_wire_form :
    (∀ td : Timedelta, TimeDeltaSerializer.uncheck_serialize td = specDurationWireForm td) ∧
    TimeDeltaSerializer.uncheck_serialize { days := 0, seconds := 3600, microseconds := 0 }
      = "1:00:00" ∧
    TimeDeltaSerializer.uncheck_serialize { days := 2, seconds := 10800, microseconds := 0 }
      = "P2DT3H" := by
  refine ⟨?_, by rfl, by rfl⟩
  intro td
  simp only [TimeDeltaSerializer.uncheck_serialize, specDurationWireForm,
    ← duration_component_eq]

/-- Claim C8 (code evaluated at the failing input): the shared string
validator singleton is not stateless.  Starting from the as-built state
(`allow_number = true`), validating the integer `123` succeeds with
`"123"`; an intervening call with the per-call override
`allow_number=False` writes the override into the validator's own state;
after it, validating the identical integer `123` raises instead — two
identical inputs no longer produce identical results. -/
theorem c8_string_validator_state_mutation :
    (StringValidator.validate { allow_number := true } (PyValue.int 123) Option.none).1
      = Except.ok (PyValue.str "123") ∧
    (StringValidator.validate { allow_number := true } (PyValue.str "a") (some false)).2.allow_number
      = false ∧
    (StringValidator.validate
        (StringValidator.validate { allow_number := true } (PyValue.str "a") (some false)).2
        (PyValue.int 123) Option.none).1
      = Except.error "ValueError: 输入应为有效字符串" ∧
    (Except.ok (PyValue.str "123") : Except String PyValue)
      ≠ Except.error "ValueError: 输入应为有效字符串" := by
  refine ⟨rfl, rfl, rfl, fun h => Except.noConfusion h⟩

/-- Claim C5: the record-level serializer applies its mismatch policy
once, at the end of the whole call, after every field has been processed
(the per-field pass is the same for all three policies): under `ignore`
all recorded diagnostics are dropped and the per-field outputs are
returned; under `error` one bundled `SerializationError` is raised at the
end exactly when at least one mismatch message was recorded; under the
default `warn` exactly one process warning bundling all accumulated
messages is emitted and the output is still returned. -/
theorem c5_serializer_error_policy (fields : List (String × SerField))
    (dict_value : List (String × PyValue)) (mode : SerMode) (exclude_none : Bool) :
    FastSerializer.to_python fields dict_value mode exclude_none SerializeError.ignore
      = SerResult.ok (FastSerializer.run_fields fields dict_value mode exclude_none).1 [] ∧
    FastSerializer.to_python fields dict_value mode exclude_none SerializeError.error
      = (if (FastSerializer.run_fields fields dict_value mode exclude_none).2 = [] then
          SerResult.ok (FastSerializer.run_fields fields dict_value mode exclude_none).1 []
        else
          SerResult.raised ("Fast serializer warnings:\n  " ++ String.intercalate "\n  "
            (FastSerializer.run_fields fields dict_value mode exclude_none).2)) ∧
    FastSerializer.to_python fields dict_value mode exclude_none SerializeError.warn
      = (if (FastSerializer.run_fields fields dict_value mode exclude_none).2 = [] then
          SerResult.ok (FastSerializer.run_fields fields dict_value mode exclude_none).1 []
        else
          SerResult.ok (FastSerializer.run_fields fields dict_value mode exclude_none).1
            ["Fast serializer warnings:\n  " ++ String.intercalate "\n  "
              (FastSerializer.run_fields fields dict_value mode exclude_none).2]) ∧
    SerParameter.default_init.errors = SerializeError.warn := by
  refine ⟨?_, ?_, ?_, rfl⟩ <;>
    · simp only [FastSerializer.to_python, SerParameter.check_error]
      rcases h : (FastSerializer.run_fields fields dict_value mode exclude_none).2 with _ | ⟨m, ms⟩ <;>
        simp [h]

/-- The index-driven entry loop of the report and plain
separator-joining agree. -/
theorem format_line_errors_aux_eq (l : List ErrorDetail) :
    ∀ i L, i + l.length = L →
      ValidationError.format_line_errors_aux L i l
        = joinSep "\n" (l.map ErrorDetail.entry_line) := by
  induction l with
  | nil => intro i L _; rfl
  | cons e rest ih =>
    intro i L hL
    rcases rest with _ | ⟨e2, rest2⟩
    · have hi : i = L - 1 := by simp at hL; omega
      simp only [ValidationError.format_line_errors_aux, List.map]
      rw [if_pos hi]
      show (ErrorDetail.entry_line e ++ "") ++ "" = joinSep "\n" [ErrorDetail.entry_line e]
      simp [joinSep]
    · have hne : ¬ i = L - 1 := by simp at hL; omega
      have ihh := ih (i + 1) L (by simp at hL ⊢; omega)
      simp only [ValidationError.format_line_errors_aux, List.map] at ihh ⊢
      rw [if_neg hne, ihh]
      rfl

/-- Claim C6: the textual form of an aggregated validation failure is
exactly `"<N> validation error[s] for <title>"` (plural `s` precisely when
more than one error), a newline, then for every error detail in order the
dot-joined location, a newline, and the two-space-indented
`"<msg> [exception_type=..., input_value=..., input_type=...]"` line,
entries separated by newlines with no trailing newline; for the record
`"User"` with two failing fields, the report begins with
`"2 validation errors for User"` (the second conjunct gives the full
literal text). -/
theorem c6_validation_error_report :
    (∀ (title : String) (errs : List ErrorDetail),
      ValidationError.pyStr { title := title, line_errors := errs }
        = toString errs.length ++ " validation error"
          ++ (if errs.length > 1 then "s" else "") ++ " for " ++ title ++ "\n"
          ++ joinSep "\n" (errs.map ErrorDetail.entry_line)) ∧
    ValidationError.pyStr { title := "User", line_errors := userExampleErrors }
      = "2 validation errors for User\n"
        ++ "name\n  字段为必填项 [exception_type=missing, "
        ++ "input_value=\x7b\x27age\x27: 1\x7d, input_type=dict]\n"
        ++ "age\n  输入应为有效整数，无法将字符串解析为整数 [exception_type=int_parsing, "
        ++ "input_value=\x27abc\x27, input_type=abc]" := by
  constructor
  · intro title errs
    simp only [ValidationError.pyStr, ValidationError.format_line_errors]
    rw [format_line_errors_aux_eq errs 0 errs.length (by omega)]
  · rfl

/-- Claim C7, counterexample: a field explicitly declared with
`required=True` inside a record whose configuration sets `required=False`
does not keep its declared flag — the compiler's flag-assignment step
overwrites it with the configuration value. -/
theorem c7_field_required_counterexample :
    (generate_field_flags
        { name := Option.none, required := some true, frozen := Option.none,
          default := PyValue.none, default_factory := Option.none,
          validator := fun v => Except.ok v }
        "x"
        (DataclassConfig.post_init { required := some false, frozen := false }
          { DATACLASS_DEFAULT_REQUIRED := false })).required = some false ∧
    some false ≠ some true := by
  exact ⟨rfl, fun h => by simp at h⟩

/-- Claim C7 (amended): the compiler assigns a field's required flag from
the owning record's configuration unconditionally — an explicitly
declared per-field requiredness is overwritten, not kept — and the record
configuration's requiredness, when left unset, is resolved from the
global settings' default field-requiredness at configuration construction
time (an explicitly set configuration value is kept). -/
theorem c7_field_required_amended (f : PyField) (field_name : String)
    (cfg : DataclassConfig) (g : GlobalSettingState) :
    (generate_field_flags f field_name cfg).required = cfg.required ∧
    (DataclassConfig.post_init cfg g).required
      = some (cfg.required.getD (GlobalSetting.get_dataclass_default_required g)) := by
  refine ⟨rfl, ?_⟩
  rcases hc : cfg.required with _ | b
  · simp [DataclassConfig.post_init, hc]
  · simp [DataclassConfig.post_init, hc]

/-- Claim C1: record construction from a key/value map processes every
declared field: a required field with no supplied value and no default
records a `missing` error at that field's location, a supplied value runs
through the field's validator with any failure re-located under the field
name, and exactly one aggregated `ValidationError` (titled with the
record name) results if and only if at least one error was recorded; a
record with two required, unsupplied fields yields one error whose count
is exactly 2, each entry located at the right field with kind `missing`. -/
theorem c1_missing_required_aggregation :
    (∀ (name : String) (fields : List (String × PyField)) (input : List (String × PyValue)),
      (∃ e, FastDeserializer.deserialize_init name fields input DeserializeErrorMode.strict
          = Except.error e)
        ↔ (FastDeserializer.process_fields fields input).2 ≠ []) ∧
    FastDeserializer.deserialize_init "User"
        [("a", c1RequiredField), ("b", c1RequiredField)] [] DeserializeErrorMode.strict
      = Except.error c1TwoMissingError ∧
    ValidationError.error_count c1TwoMissingError = 2 ∧
    FastDeserializer.deserialize_init "User" [("c", c1NestedFailField)]
        [("c", PyValue.list [PyValue.str "x"])] DeserializeErrorMode.strict
      = Except.error
          { title := "User",
            line_errors := [{ loc := [Loc.s "c", Loc.n 0],
                              input_value := PyValue.str "x",
                              exception_type := "int_parsing",
                              msg := "输入应为有效整数，无法将字符串解析为整数" }] } := by
  refine ⟨?_, rfl, rfl, rfl⟩
  intro name fields input
  rcases h : (FastDeserializer.process_fields fields input).2 with _ | ⟨e, es⟩
  · simp [FastDeserializer.deserialize_init, h]
  · simp [FastDeserializer.deserialize_init, h]

/-- Claim C10: the lazy-iterable validator's wrapper validates items and
re-checks the running length only through its own `next`; consuming the
wrapper through the standard iteration protocol yields the raw underlying
items with no validation and no length check, because `__iter__` returns
the wrapped generator itself.  Concretely, with an item validator that
rejects everything and a minimum length of 5, standard iteration still
yields the raw item `"a"`, while the wrapper's `next` raises one
aggregated error holding both the item failure and the running-length
failure at index 0. -/
theorem c10_generator_iter_bypasses_validation :
    (∀ (iv : PyValue → Except VError PyValue) (minL maxL : Option ℕ) (xs : List PyValue),
      Except.map GeneratorIterator.iter (GeneratorValidator.validate iv minL maxL (PyValue.list xs))
        = Except.ok xs) ∧
    Except.map GeneratorIterator.iter
        (GeneratorValidator.validate c10FailValidator (some 5) Option.none
          (PyValue.list [PyValue.str "a"]))
      = Except.ok [PyValue.str "a"] ∧
    (match GeneratorValidator.validate c10FailValidator (some 5) Option.none
        (PyValue.list [PyValue.str "a"]) with
     | Except.ok w => GeneratorIterator.next w = Except.error (some c10ExpectedError)
     | Except.error _ => False) := by
  exact ⟨fun iv minL maxL xs => rfl, rfl, rfl⟩

/-- Claim C2: the date/time parsing constants are 4/2/2/8 with a 10-digit
load-time timestamp length; `"20240204"` (length 8, integer-parseable)
and `"2024-02-04"` (length 10, not integer-parseable, delimiter
auto-detected as `-`) both parse to the calendar date 2024-02-04; the
10-digit integer `1718245600` parses as Unix seconds and the 13-digit
integer `1718245600000` as a millisecond timestamp divided by 1000 —
both yield the same date-time. -/
theorem c2_datetime_parsing_table :
    DatetimeValidator.year_length = 4 ∧
    DatetimeValidator.month_length = 2 ∧
    DatetimeValidator.day_length = 2 ∧
    DatetimeValidator.date_length = 8 ∧
    DatetimeValidator.timestamp_length = 10 ∧
    DatetimeValidator.str_or_int_to_datetime "20240204"
      = Except.ok (PyDatetime.civil 2024 2 4 0 0 0) ∧
    DatetimeValidator.str_or_int_to_datetime "2024-02-04"
      = Except.ok (PyDatetime.civil 2024 2 4 0 0 0) ∧
    DatetimeValidator.validate_number 1718245600
      = Except.ok (PyDatetime.fromTimestamp 1718245600) ∧
    DatetimeValidator.validate_number 1718245600000
      = Except.ok (PyDatetime.fromTimestamp ((1718245600000 : ℚ) / 1000)) ∧
    ((1718245600000 : ℚ) / 1000 = (1718245600 : ℚ)) := by
  refine ⟨rfl, rfl, rfl, rfl, rfl, ?_, ?_, ?_, ?_, by norm_num⟩ <;> rfl

/-- Claim C9 (code evaluated at the failing input): every
type-introspection check of the type parser tolerates the absent
annotation `None` and returns false (the safe origin accessor returns
`None` without raising) — except `is_fast_dataclass`, which is declared
without a `self` parameter, so the bound-method call the code base
actually makes raises `TypeError` for every argument, `None` included,
instead of returning false. -/
theorem c9_type_parser_none_tolerance :
    TypeParser.is_any Ann.none = false ∧
    TypeParser.is_optional Ann.none = false ∧
    TypeParser.is_no_return Ann.none = false ∧
    TypeParser.is_union Ann.none = false ∧
    TypeParser.is_literal Ann.none = false ∧
    TypeParser.is_final Ann.none = false ∧
    TypeParser.is_class_var Ann.none = false ∧
    TypeParser.is_collection Ann.none = false ∧
    TypeParser.is_deque Ann.none = false ∧
    TypeParser.is_iterable Ann.none = false ∧
    TypeParser.is_list Ann.none = false ∧
    TypeParser.is_tuple Ann.none = false ∧
    TypeParser.is_set Ann.none = false ∧
    TypeParser.is_mapping Ann.none = false ∧
    TypeParser.is_dict Ann.none = false ∧
    TypeParser.is_sequence Ann.none = false ∧
    TypeParser.is_counter Ann.none = false ∧
    TypeParser.is_function Ann.none = false ∧
    TypeParser.is_pydantic_model Ann.none = false ∧
    TypeParser.get_origin_safe Ann.none = Ann.none ∧
    (∀ a : Ann, TypeParser.is_fast_dataclass_boundcall a
      = Except.error
          "TypeError: is_fast_dataclass() takes 1 positional argument but 2 were given") ∧
    TypeParser.is_fast_dataclass_function Ann.none = false := by
  refine ⟨rfl, rfl, rfl, rfl, rfl, rfl, rfl, rfl, rfl, rfl, rfl, rfl, rfl, rfl,
    rfl, rfl, rfl, rfl, rfl, rfl, fun a => rfl, rfl⟩
